import Mathlib

/-!
# TrustSync deployment script (`scripts/deploy.js`)

A shallow embedding of the deployment script.  The script is one `async`
function `main` that performs a fixed sequence of calls into Hardhat/ethers
and Node, followed by the top level `main().then(..).catch(..)` that turns the
outcome of `main` into a process exit status.

Every call into a collaborator (`getSigners`, `getBalance`,
`getContractFactory`, `deploy`, `deployed`, the three accessors and
`fs.writeFileSync`) either returns or throws; what it does is fixed by an
environment value, so that a run of the script is a function of the
environment and of the file system it starts from.  The run produces the two
console streams, the sequence of collaborator calls that were made, the file
system it leaves behind and the exit status.
-/

namespace TrustSync

/-! ## Values -/

/-- A value thrown by JavaScript code: the `name` and `message` of the error. -/
structure JSError where
  name : String
  message : String
deriving DecidableEq, Repr

/-- The values the script hands to `console.log` / `console.error` and puts
in the deployment record. -/
inductive JSVal where
  | str (s : String)
  | num (n : Nat)
  | null
  | error (e : JSError)
deriving DecidableEq, Repr

/-- The ethers `TransactionResponse` fields the script reads.  `blockNumber`
is `null` while the transaction is not known to be mined.  `wait` is the
outcome of `deployTransaction.wait()`: it throws, or it resolves with the
receipt of the transaction, of which the number of the confirming block is
kept. -/
structure TransactionResponse where
  hash : String
  blockNumber : Option Nat
  gasLimit : Nat
  wait : Except JSError Nat

/-- The contract instance returned by `Project.deploy()`: its fields and the
outcome of each accessor the script calls on it. -/
structure Contract where
  address : String
  deployTransaction : TransactionResponse
  agreementCounter : Except JSError Nat
  REPUTATION_REWARD : Except JSError Nat
  REPUTATION_PENALTY : Except JSError Nat

/-- The method `deployed()` of ethers: it waits for the receipt of the
deployment transaction, `this.deployTransaction.wait().then(() => this)`, and
drops it.  The script does not use the resolved value. -/
def Contract.deployed (project : Contract) : Except JSError Unit :=
  project.deployTransaction.wait.map fun _ => ()

/-- The object returned by `getContractFactory`. -/
structure ContractFactory where
  deploy : Except JSError Contract

/-- A signer as returned by `getSigners`. -/
structure Signer where
  address : String
  getBalance : Except JSError Nat

/-- The part of the Hardhat runtime environment the script uses. -/
structure Hre where
  getSigners : Except JSError (List Signer)
  formatEther : Nat → String
  getContractFactory : String → Except JSError ContractFactory
  networkName : String

/-- Everything outside the script that a run depends on: the Hardhat runtime
environment, the clock (`new Date().toISOString()`) and the outcome of
`fs.writeFileSync` for a given path and data. -/
structure Env where
  hre : Hre
  now : String
  writeFileSync : String → String → Except JSError Unit

/-! ## Observable state -/

/-- The calls into collaborators that the script makes. -/
inductive Call where
  | getSigners
  | getBalance
  | getContractFactory (name : String)
  | deploy
  | deployed
  | agreementCounter
  | REPUTATION_REWARD
  | REPUTATION_PENALTY
  | writeFileSync (path data : String)
deriving DecidableEq, Repr

/-- One collaborator call that was made, with the error it threw, if any. -/
structure Event where
  call : Call
  threw : Option JSError
deriving DecidableEq, Repr

/-- The file system: the content of each path, if the file exists. -/
abbrev FileSystem := String → Option String

/-- The state a run of the script acts on. -/
structure World where
  stdout : List (List JSVal)
  stderr : List (List JSVal)
  trace : List Event
  files : FileSystem

/-- A computation of the script: it may throw, and it updates the world. -/
def Script (α : Type) : Type := World → Except JSError α × World

namespace Script

/-- Return a value. -/
def ret {α : Type} (a : α) : Script α := fun w => (.ok a, w)

/-- Sequencing: a throw in the first computation skips the second. -/
def andThen {α β : Type} (m : Script α) (f : α → Script β) : Script β := fun w =>
  match m w with
  | (.ok a, w1) => f a w1
  | (.error e, w1) => (.error e, w1)

/-- A `throw` statement (or an operation that throws). -/
def throwJS {α : Type} (e : JSError) : Script α := fun w => (.error e, w)

end Script

instance : Monad Script where
  pure := Script.ret
  bind := Script.andThen

/-- The call `console.log(...args)`. -/
def consoleLog (args : List JSVal) : Script Unit := fun w =>
  (.ok (), { w with stdout := w.stdout ++ [args] })

/-- The call `console.error(...args)`. -/
def consoleError (args : List JSVal) : Script Unit := fun w =>
  (.ok (), { w with stderr := w.stderr ++ [args] })

/-- A collaborator call `c` whose outcome is `r`: the call is recorded, and it
returns its value or throws its error. -/
def await {α : Type} (c : Call) (r : Except JSError α) : Script α := fun w =>
  match r with
  | .ok a => (.ok a, { w with trace := w.trace ++ [⟨c, none⟩] })
  | .error e => (.error e, { w with trace := w.trace ++ [⟨c, some e⟩] })

/-- The effect of a successful `fs.writeFileSync(path, data)`: the file is
replaced by `data`, every other path is left alone. -/
def FileSystem.write (files : FileSystem) (path data : String) : FileSystem :=
  fun p => if p = path then some data else files p

/-- The call `fs.writeFileSync(path, data)`.  A failing write throws and is
taken to leave the file system as it was. -/
def writeFileSync (env : Env) (path data : String) : Script Unit := fun w =>
  match env.writeFileSync path data with
  | .ok () =>
    (.ok (), { w with trace := w.trace ++ [⟨.writeFileSync path data, none⟩],
                      files := w.files.write path data })
  | .error e =>
    (.error e, { w with trace := w.trace ++ [⟨.writeFileSync path data, some e⟩] })

/-- The error of reading property `prop` of `undefined`, with the message of
Node: the property name stands between apostrophes. -/
def undefinedPropertyError (prop : String) : JSError :=
  ⟨"TypeError", "Cannot read properties of undefined (reading \x27" ++ prop ++ "\x27)"⟩

/-! ## `JSON.stringify(value, null, 2)` -/

/-- A hexadecimal digit, lower case. -/
def hexDigit (n : Nat) : Char :=
  if n < 10 then Char.ofNat (48 + n) else Char.ofNat (87 + n)

/-- The JSON escape of one character inside a string literal: the quotation
mark (34), the backslash (92), the control characters with a short escape
(8, 9, 10, 12, 13) and the other control characters below 32. -/
def quoteChar (c : Char) : String :=
  if c.toNat = 34 then "\\\""
  else if c.toNat = 92 then "\\\\"
  else if c.toNat = 8 then "\\b"
  else if c.toNat = 12 then "\\f"
  else if c.toNat = 10 then "\\n"
  else if c.toNat = 13 then "\\r"
  else if c.toNat = 9 then "\\t"
  else if c.toNat < 32 then
    "\\u00" ++ String.mk [hexDigit (c.toNat / 16), hexDigit (c.toNat % 16)]
  else String.mk [c]

/-- The JSON string literal for `s`. -/
def quoteJSONString (s : String) : String :=
  "\"" ++ String.join (s.toList.map quoteChar) ++ "\""

/-- The serialization of a property value.  An `Error` object has no
enumerable property of its own and serializes as the empty object. -/
def JSVal.render : JSVal → String
  | .str s => quoteJSONString s
  | .num n => toString n
  | .null => "null"
  | .error _ => "\x7b\x7d"

/-- The call `JSON.stringify(obj, null, 2)` for a flat object given by its
properties in insertion order. -/
def JSON.stringify (obj : List (String × JSVal)) : String :=
  match obj with
  | [] => "\x7b\x7d"
  | _ =>
    "\x7b\n" ++
      String.intercalate ",\n"
        (obj.map fun kv => "  " ++ quoteJSONString kv.1 ++ ": " ++ kv.2.render) ++
      "\n\x7d"

/-- A field of type `number | null` as a value. -/
def numberOrNull : Option Nat → JSVal
  | some n => .num n
  | none => .null

/-! ## The script -/

/-- The object literal `deploymentInfo` of `main`. -/
def deploymentInfo (project : Contract) (deployer : Signer) (env : Env) :
    List (String × JSVal) :=
  [ ("contractAddress", .str project.address),
    ("transactionHash", .str project.deployTransaction.hash),
    ("blockNumber", numberOrNull project.deployTransaction.blockNumber),
    ("deployer", .str deployer.address),
    ("network", .str env.hre.networkName),
    ("timestamp", .str env.now),
    ("contractName", .str "TrustSync (Project.sol)") ]

/-- The function `main` of `scripts/deploy.js`. -/
def main (env : Env) : Script Unit := do
  consoleLog [.str "Starting TrustSync deployment..."]
  consoleLog [.str "==========================================\n"]
  -- const [deployer] = await hre.ethers.getSigners();
  let signers ← await .getSigners env.hre.getSigners
  -- deployer is undefined when the array is empty; deployer.address then throws
  let some deployer := signers.head?
    | Script.throwJS (undefinedPropertyError "address")
  consoleLog [.str "Deploying contracts with account:", .str deployer.address]
  let balance ← await .getBalance deployer.getBalance
  consoleLog [.str "Account balance:", .str (env.hre.formatEther balance), .str "ETH\n"]
  let Project ← await (.getContractFactory "Project") (env.hre.getContractFactory "Project")
  consoleLog [.str "Deploying TrustSync contract..."]
  let project ← await .deploy Project.deploy
  await .deployed project.deployed
  consoleLog [.str "\n=========================================="]
  consoleLog [.str "✅ TrustSync contract deployed successfully!"]
  consoleLog [.str "==========================================\n"]
  consoleLog [.str "Contract Address:", .str project.address]
  consoleLog [.str "Transaction Hash:", .str project.deployTransaction.hash]
  consoleLog [.str "Block Number:", numberOrNull project.deployTransaction.blockNumber]
  consoleLog [.str "Gas Used:", .str (toString project.deployTransaction.gasLimit)]
  consoleLog [.str "\n=========================================="]
  consoleLog [.str "Contract Details"]
  consoleLog [.str "==========================================\n"]
  let agreementCounter ← await .agreementCounter project.agreementCounter
  let reputationReward ← await .REPUTATION_REWARD project.REPUTATION_REWARD
  let reputationPenalty ← await .REPUTATION_PENALTY project.REPUTATION_PENALTY
  consoleLog [.str "Initial Agreement Counter:", .str (toString agreementCounter)]
  consoleLog [.str "Reputation Reward:", .str (toString reputationReward), .str "points"]
  consoleLog [.str "Reputation Penalty:", .str (toString reputationPenalty), .str "points"]
  consoleLog [.str "\n=========================================="]
  consoleLog [.str "Next Steps"]
  consoleLog [.str "==========================================\n"]
  consoleLog [.str "1. Verify your contract on Etherscan (if on mainnet/testnet):"]
  consoleLog [.str ("   npx hardhat verify --network <network> " ++ project.address ++ "\n")]
  consoleLog [.str "2. Save the contract address for frontend integration"]
  consoleLog [.str "3. Register users by calling registerUser()"]
  consoleLog [.str "4. Start creating agreements!\n"]
  writeFileSync env "deployment-info.json"
    (JSON.stringify (deploymentInfo project deployer env))
  consoleLog [.str "📄 Deployment info saved to deployment-info.json\n"]
  consoleLog [.str "=========================================="]
  consoleLog [.str "Deployment Complete! 🎉"]
  consoleLog [.str "==========================================\n"]

/-- A finished process: the exit status and the world it leaves. -/
structure Exit where
  status : Nat
  world : World

/-- The world a process starts in: empty streams, no call made yet. -/
def World.initial (files : FileSystem) : World :=
  { stdout := [], stderr := [], trace := [], files := files }

/-- The top level `main().then(() => process.exit(0)).catch(...)`. -/
def execute (env : Env) (files : FileSystem) : Exit :=
  match main env (World.initial files) with
  | (.ok (), w) => { status := 0, world := w }
  | (.error error, w) =>
    match (do
        consoleError [.str "\n❌ Deployment failed!"]
        consoleError [.str "==========================================\n"]
        consoleError [.error error] : Script Unit) w with
    | (_, w1) => { status := 1, world := w1 }

/-! ## Specification vocabulary -/

/-- The path of the deployment record. -/
def recordPath : String := "deployment-info.json"

/-- Whether an event is an invocation of `fs.writeFileSync`. -/
def Event.isWrite (ev : Event) : Bool :=
  match ev.call with
  | .writeFileSync _ _ => true
  | _ => false

/-- Whether an event is an invocation of one of the three accessors. -/
def Event.isProbe (ev : Event) : Bool :=
  match ev.call with
  | .agreementCounter => true
  | .REPUTATION_REWARD => true
  | .REPUTATION_PENALTY => true
  | _ => false

/-- Whether a call goes to the network node: signer enumeration
(`eth_accounts`), the balance query (`eth_getBalance`), the submission of the
deployment transaction and the wait for its receipt, and the accessor calls
(`eth_call`).  The factory lookup reads the compiled artifact from disk and
`fs.writeFileSync` is local. -/
def Call.isNetworkCall : Call → Bool
  | .getSigners => true
  | .getBalance => true
  | .getContractFactory _ => false
  | .deploy => true
  | .deployed => true
  | .agreementCounter => true
  | .REPUTATION_REWARD => true
  | .REPUTATION_PENALTY => true
  | .writeFileSync _ _ => false

/-- The three lines the `catch` handler writes for the error `err`. -/
def failureReport (err : JSError) : List (List JSVal) :=
  [[.str "\n❌ Deployment failed!"],
   [.str "==========================================\n"],
   [.error err]]

/-- The calls made by a run that halts, and the value `main` rejects with, in
terms of the environment: one alternative per place where `main` can throw. -/
inductive Halts (env : Env) : List Event → JSError → Prop where
  | getSigners (e : JSError) :
      env.hre.getSigners = .error e →
      Halts env [⟨.getSigners, some e⟩] e
  | noSigner :
      env.hre.getSigners = .ok [] →
      Halts env [⟨.getSigners, none⟩] (undefinedPropertyError "address")
  | getBalance (deployer : Signer) (rest : List Signer) (e : JSError) :
      env.hre.getSigners = .ok (deployer :: rest) →
      deployer.getBalance = .error e →
      Halts env [⟨.getSigners, none⟩, ⟨.getBalance, some e⟩] e
  | getContractFactory (deployer : Signer) (rest : List Signer) (balance : Nat)
      (e : JSError) :
      env.hre.getSigners = .ok (deployer :: rest) →
      deployer.getBalance = .ok balance →
      env.hre.getContractFactory "Project" = .error e →
      Halts env [⟨.getSigners, none⟩, ⟨.getBalance, none⟩,
        ⟨.getContractFactory "Project", some e⟩] e
  | deploy (deployer : Signer) (rest : List Signer) (balance : Nat)
      (factory : ContractFactory) (e : JSError) :
      env.hre.getSigners = .ok (deployer :: rest) →
      deployer.getBalance = .ok balance →
      env.hre.getContractFactory "Project" = .ok factory →
      factory.deploy = .error e →
      Halts env [⟨.getSigners, none⟩, ⟨.getBalance, none⟩,
        ⟨.getContractFactory "Project", none⟩, ⟨.deploy, some e⟩] e
  | deployed (deployer : Signer) (rest : List Signer) (balance : Nat)
      (factory : ContractFactory) (project : Contract) (e : JSError) :
      env.hre.getSigners = .ok (deployer :: rest) →
      deployer.getBalance = .ok balance →
      env.hre.getContractFactory "Project" = .ok factory →
      factory.deploy = .ok project →
      project.deployed = .error e →
      Halts env [⟨.getSigners, none⟩, ⟨.getBalance, none⟩,
        ⟨.getContractFactory "Project", none⟩, ⟨.deploy, none⟩,
        ⟨.deployed, some e⟩] e
  | agreementCounter (deployer : Signer) (rest : List Signer) (balance : Nat)
      (factory : ContractFactory) (project : Contract) (e : JSError) :
      env.hre.getSigners = .ok (deployer :: rest) →
      deployer.getBalance = .ok balance →
      env.hre.getContractFactory "Project" = .ok factory →
      factory.deploy = .ok project →
      project.deployed = .ok () →
      project.agreementCounter = .error e →
      Halts env [⟨.getSigners, none⟩, ⟨.getBalance, none⟩,
        ⟨.getContractFactory "Project", none⟩, ⟨.deploy, none⟩,
        ⟨.deployed, none⟩, ⟨.agreementCounter, some e⟩] e
  | reputationReward (deployer : Signer) (rest : List Signer) (balance : Nat)
      (factory : ContractFactory) (project : Contract) (counter : Nat)
      (e : JSError) :
      env.hre.getSigners = .ok (deployer :: rest) →
      deployer.getBalance = .ok balance →
      env.hre.getContractFactory "Project" = .ok factory →
      factory.deploy = .ok project →
      project.deployed = .ok () →
      project.agreementCounter = .ok counter →
      project.REPUTATION_REWARD = .error e →
      Halts env [⟨.getSigners, none⟩, ⟨.getBalance, none⟩,
        ⟨.getContractFactory "Project", none⟩, ⟨.deploy, none⟩,
        ⟨.deployed, none⟩, ⟨.agreementCounter, none⟩,
        ⟨.REPUTATION_REWARD, some e⟩] e
  | reputationPenalty (deployer : Signer) (rest : List Signer) (balance : Nat)
      (factory : ContractFactory) (project : Contract) (counter reward : Nat)
      (e : JSError) :
      env.hre.getSigners = .ok (deployer :: rest) →
      deployer.getBalance = .ok balance →
      env.hre.getContractFactory "Project" = .ok factory →
      factory.deploy = .ok project →
      project.deployed = .ok () →
      project.agreementCounter = .ok counter →
      project.REPUTATION_REWARD = .ok reward →
      project.REPUTATION_PENALTY = .error e →
      Halts env [⟨.getSigners, none⟩, ⟨.getBalance, none⟩,
        ⟨.getContractFactory "Project", none⟩, ⟨.deploy, none⟩,
        ⟨.deployed, none⟩, ⟨.agreementCounter, none⟩,
        ⟨.REPUTATION_REWARD, none⟩, ⟨.REPUTATION_PENALTY, some e⟩] e
  | writeFileSync (deployer : Signer) (rest : List Signer) (balance : Nat)
      (factory : ContractFactory) (project : Contract)
      (counter reward penalty : Nat) (e : JSError) :
      env.hre.getSigners = .ok (deployer :: rest) →
      deployer.getBalance = .ok balance →
      env.hre.getContractFactory "Project" = .ok factory →
      factory.deploy = .ok project →
      project.deployed = .ok () →
      project.agreementCounter = .ok counter →
      project.REPUTATION_REWARD = .ok reward →
      project.REPUTATION_PENALTY = .ok penalty →
      env.writeFileSync recordPath
        (JSON.stringify (deploymentInfo project deployer env)) = .error e →
      Halts env [⟨.getSigners, none⟩, ⟨.getBalance, none⟩,
        ⟨.getContractFactory "Project", none⟩, ⟨.deploy, none⟩,
        ⟨.deployed, none⟩, ⟨.agreementCounter, none⟩,
        ⟨.REPUTATION_REWARD, none⟩, ⟨.REPUTATION_PENALTY, none⟩,
        ⟨.writeFileSync recordPath
          (JSON.stringify (deploymentInfo project deployer env)), some e⟩] e

/-- The environment lets every call of `main` return: `deployer` is the first
signer, `project` the instance returned by `deploy()`, and `counter`, `reward`,
`penalty` the values returned by the three accessors. -/
structure Completes (env : Env) (deployer : Signer) (project : Contract)
    (counter reward penalty : Nat) : Prop where
  signers : ∃ rest, env.hre.getSigners = .ok (deployer :: rest)
  balance : ∃ balance, deployer.getBalance = .ok balance
  factory : ∃ factory, env.hre.getContractFactory "Project" = .ok factory ∧
    factory.deploy = .ok project
  deployed : project.deployed = .ok ()
  agreementCounter : project.agreementCounter = .ok counter
  reputationReward : project.REPUTATION_REWARD = .ok reward
  reputationPenalty : project.REPUTATION_PENALTY = .ok penalty
  written : env.writeFileSync recordPath
    (JSON.stringify (deploymentInfo project deployer env)) = .ok ()

/-- The calls made before the write by a run that reaches the write. -/
def callsBeforeWrite : List Event :=
  [⟨.getSigners, none⟩, ⟨.getBalance, none⟩, ⟨.getContractFactory "Project", none⟩,
   ⟨.deploy, none⟩, ⟨.deployed, none⟩, ⟨.agreementCounter, none⟩,
   ⟨.REPUTATION_REWARD, none⟩, ⟨.REPUTATION_PENALTY, none⟩]

/-- The calls made by a run in which every call returns. -/
def completeTrace (env : Env) (deployer : Signer) (project : Contract) : List Event :=
  [⟨.getSigners, none⟩, ⟨.getBalance, none⟩, ⟨.getContractFactory "Project", none⟩,
   ⟨.deploy, none⟩, ⟨.deployed, none⟩, ⟨.agreementCounter, none⟩,
   ⟨.REPUTATION_REWARD, none⟩, ⟨.REPUTATION_PENALTY, none⟩,
   ⟨.writeFileSync recordPath (JSON.stringify (deploymentInfo project deployer env)), none⟩]

/-! ## Concrete environments -/

/-- The function `ethers.utils.formatEther`: the amount in ether with at least
one fractional digit and no other trailing zero. -/
def formatEther (wei : Nat) : String :=
  let fraction := (toString (wei % 10 ^ 18)).toList
  let padded := List.replicate (18 - fraction.length) '0' ++ fraction
  let stripped := (padded.reverse.dropWhile (· == '0')).reverse
  toString (wei / 10 ^ 18) ++ "." ++ String.mk (if stripped = [] then ['0'] else stripped)

/-- A file system without any file. -/
def emptyFiles : FileSystem := fun _ => none

/-- The instance of the end-to-end scenario: address `0xBBB...`, confirmed at
block 1000 with hash `0xdeadbeef...`, counter 0, reward 10, penalty 5. -/
def scenarioProject : Contract :=
  { address := "0xBBB..."
    deployTransaction :=
      { hash := "0xdeadbeef...", blockNumber := some 1000, gasLimit := 3000000,
        wait := .ok 1000 }
    agreementCounter := .ok 0
    REPUTATION_REWARD := .ok 10
    REPUTATION_PENALTY := .ok 5 }

/-- The signer of the end-to-end scenario, holding one ether. -/
def scenarioSigner : Signer :=
  { address := "0xAAA...", getBalance := .ok (10 ^ 18) }

/-- The environment in which `deploy()` returns `project` on network
`goerli`, every other call returns, and the first signer is `signer`. -/
def envWith (signer : Signer) (project : Contract) : Env :=
  { hre :=
      { getSigners := .ok [signer]
        formatEther := formatEther
        getContractFactory := fun _ => .ok { deploy := .ok project }
        networkName := "goerli" }
    now := "2024-01-01T00:00:00.000Z"
    writeFileSync := fun _ _ => .ok () }

/-- The environment of the end-to-end scenario. -/
def scenarioEnv : Env := envWith scenarioSigner scenarioProject

/-- An instance whose deployment transaction carries no block number, as the
response of a transaction that was still pending when it was fetched; it is
confirmed in block 1000. -/
def pendingProject : Contract :=
  { scenarioProject with
    deployTransaction :=
      { hash := "0xdeadbeef...", blockNumber := none, gasLimit := 3000000,
        wait := .ok 1000 } }

/-- The scenario with an instance whose block number is `null`. -/
def pendingEnv : Env := envWith scenarioSigner pendingProject

/-- An instance whose accessors return counter 1, reward 7, penalty 3. -/
def mismatchProject : Contract :=
  { scenarioProject with
    agreementCounter := .ok 1
    REPUTATION_REWARD := .ok 7
    REPUTATION_PENALTY := .ok 3 }

/-- The scenario with an instance whose accessors return unexpected values. -/
def mismatchEnv : Env := envWith scenarioSigner mismatchProject

/-- The error Hardhat raises when the artifact of a contract is missing. -/
def artifactNotFound : JSError :=
  ⟨"HardhatError", "HH700: Artifact for contract \"Project\" not found."⟩

/-- The scenario without a compiled artifact for `Project`. -/
def noArtifactEnv : Env :=
  { scenarioEnv with
    hre := { scenarioEnv.hre with getContractFactory := fun _ => .error artifactNotFound } }

/-- The error of a transaction the sender cannot pay for. -/
def insufficientFunds : JSError :=
  ⟨"Error", "insufficient funds for intrinsic transaction cost"⟩

/-- The scenario with a signer of zero balance, whose `deploy()` is refused. -/
def unfundedEnv : Env :=
  { scenarioEnv with
    hre :=
      { scenarioEnv.hre with
        getSigners := .ok [{ address := "0xAAA...", getBalance := .ok 0 }]
        getContractFactory := fun _ => .ok { deploy := .error insufficientFunds } } }

/-- The error of a node that cannot be reached. -/
def networkError : JSError :=
  ⟨"Error", "could not detect network"⟩

/-- The scenario in which the balance query fails. -/
def balanceFailEnv : Env :=
  envWith { address := "0xAAA...", getBalance := .error networkError } scenarioProject

/-- The scenario with a network that has no account configured. -/
def noSignerEnv : Env :=
  { scenarioEnv with hre := { scenarioEnv.hre with getSigners := .ok [] } }

/-- The file system in which `deployment-info.json` holds an older record and
`README.md` some text. -/
def usedFiles : FileSystem := fun p =>
  if p = "deployment-info.json" then some "\x7b\"contractAddress\": \"0x111...\"\x7d"
  else if p = "README.md" then some "# TrustSync"
  else none

/-! ## How a run unfolds -/

/-- Every environment either makes `main` halt at one of its throw points or
lets every call return. -/
theorem halts_or_completes (env : Env) :
    (∃ tr err, Halts env tr err) ∨
      (∃ deployer project counter reward penalty,
        Completes env deployer project counter reward penalty) := by
  rcases hs : env.hre.getSigners with e | signers
  · exact Or.inl ⟨_, _, .getSigners e hs⟩
  rcases signers with _ | ⟨deployer, rest⟩
  · exact Or.inl ⟨_, _, .noSigner hs⟩
  rcases hb : deployer.getBalance with e | balance
  · exact Or.inl ⟨_, _, .getBalance deployer rest e hs hb⟩
  rcases hf : env.hre.getContractFactory "Project" with e | factory
  · exact Or.inl ⟨_, _, .getContractFactory deployer rest balance e hs hb hf⟩
  rcases hd : factory.deploy with e | project
  · exact Or.inl ⟨_, _, .deploy deployer rest balance factory e hs hb hf hd⟩
  rcases hw : project.deployed with e | u
  · exact Or.inl ⟨_, _, .deployed deployer rest balance factory project e hs hb hf hd hw⟩
  rcases hc : project.agreementCounter with e | counter
  · exact Or.inl ⟨_, _,
      .agreementCounter deployer rest balance factory project e hs hb hf hd hw hc⟩
  rcases hr : project.REPUTATION_REWARD with e | reward
  · exact Or.inl ⟨_, _,
      .reputationReward deployer rest balance factory project counter e hs hb hf hd hw hc hr⟩
  rcases hp : project.REPUTATION_PENALTY with e | penalty
  · exact Or.inl ⟨_, _,
      .reputationPenalty deployer rest balance factory project counter reward e
        hs hb hf hd hw hc hr hp⟩
  rcases hx : env.writeFileSync recordPath
      (JSON.stringify (deploymentInfo project deployer env)) with e | u
  · exact Or.inl ⟨_, _,
      .writeFileSync deployer rest balance factory project counter reward penalty e
        hs hb hf hd hw hc hr hp hx⟩
  · exact Or.inr ⟨deployer, project, counter, reward, penalty,
      ⟨⟨rest, hs⟩, ⟨balance, hb⟩, ⟨factory, hf, hd⟩, hw, hc, hr, hp, hx⟩⟩

/-- A run that halts: the exit status is 1, the calls made are those of the
halting point, the file system is untouched, and the error stream holds the
failure report for the value `main` rejected with. -/
theorem execute_of_halts (env : Env) (files : FileSystem) (tr : List Event)
    (err : JSError) (h : Halts env tr err) :
    (execute env files).status = 1 ∧
    (execute env files).world.trace = tr ∧
    (execute env files).world.files = files ∧
    (execute env files).world.stderr = failureReport err ∧
    (main env (World.initial files)).1 = .error err := by
  cases h with
  | getSigners e hs =>
    simp [execute, main, bind, Script.andThen, consoleLog, consoleError, await,
      World.initial, failureReport, hs]
  | noSigner hs =>
    simp [execute, main, bind, Script.andThen, consoleLog, consoleError, await,
      World.initial, failureReport, Script.throwJS, hs]
  | getBalance deployer rest e hs hb =>
    simp [execute, main, bind, Script.andThen, consoleLog, consoleError, await,
      World.initial, failureReport, hs, hb]
  | getContractFactory deployer rest balance e hs hb hf =>
    simp [execute, main, bind, Script.andThen, consoleLog, consoleError, await,
      World.initial, failureReport, hs, hb, hf]
  | deploy deployer rest balance factory e hs hb hf hd =>
    simp [execute, main, bind, Script.andThen, consoleLog, consoleError, await,
      World.initial, failureReport, hs, hb, hf, hd]
  | deployed deployer rest balance factory project e hs hb hf hd hw =>
    simp [execute, main, bind, Script.andThen, consoleLog, consoleError, await,
      World.initial, failureReport, hs, hb, hf, hd, hw]
  | agreementCounter deployer rest balance factory project e hs hb hf hd hw hc =>
    simp [execute, main, bind, Script.andThen, consoleLog, consoleError, await,
      World.initial, failureReport, hs, hb, hf, hd, hw, hc]
  | reputationReward deployer rest balance factory project counter e hs hb hf hd hw hc hr =>
    simp [execute, main, bind, Script.andThen, consoleLog, consoleError, await,
      World.initial, failureReport, hs, hb, hf, hd, hw, hc, hr]
  | reputationPenalty deployer rest balance factory project counter reward e
      hs hb hf hd hw hc hr hp =>
    simp [execute, main, bind, Script.andThen, consoleLog, consoleError, await,
      World.initial, failureReport, hs, hb, hf, hd, hw, hc, hr, hp]
  | writeFileSync deployer rest balance factory project counter reward penalty e
      hs hb hf hd hw hc hr hp hx =>
    simp only [recordPath] at hx
    simp [execute, main, bind, Script.andThen, consoleLog, consoleError, await,
      World.initial, failureReport, writeFileSync, recordPath, hs, hb, hf, hd, hw, hc,
      hr, hp, hx]

/-- A run in which every call returns: the exit status is 0, the calls made
are exactly the nine calls of `main` in order, the record file holds the
serialized `deploymentInfo`, nothing is written to the error stream, and the
block number and the three accessor values have been displayed. -/
theorem execute_of_completes (env : Env) (files : FileSystem) (deployer : Signer)
    (project : Contract) (counter reward penalty : Nat)
    (h : Completes env deployer project counter reward penalty) :
    (execute env files).status = 0 ∧
    (execute env files).world.trace = completeTrace env deployer project ∧
    (execute env files).world.files =
      files.write recordPath (JSON.stringify (deploymentInfo project deployer env)) ∧
    (execute env files).world.stderr = [] ∧
    [.str "Block Number:", numberOrNull project.deployTransaction.blockNumber] ∈
      (execute env files).world.stdout ∧
    [.str "Initial Agreement Counter:", .str (toString counter)] ∈
      (execute env files).world.stdout ∧
    [.str "Reputation Reward:", .str (toString reward), .str "points"] ∈
      (execute env files).world.stdout ∧
    [.str "Reputation Penalty:", .str (toString penalty), .str "points"] ∈
      (execute env files).world.stdout ∧
    (main env (World.initial files)).1 = .ok () := by
  obtain ⟨⟨rest, hs⟩, ⟨balance, hb⟩, ⟨factory, hf, hd⟩, hw, hc, hr, hp, hx⟩ := h
  simp only [recordPath] at hx
  simp [execute, main, bind, Script.andThen, consoleLog, consoleError, await,
    World.initial, writeFileSync, recordPath, completeTrace, hs, hb, hf, hd, hw, hc,
    hr, hp, hx]

/-- A run that exits with status 0 is one in which every call returned. -/
theorem completes_of_status_zero (env : Env) (files : FileSystem)
    (h : (execute env files).status = 0) :
    ∃ deployer project counter reward penalty,
      Completes env deployer project counter reward penalty := by
  rcases halts_or_completes env with ⟨tr, err, hh⟩ | hc
  · have h1 := (execute_of_halts env files tr err hh).1
    omega
  · exact hc

/-- The process makes the calls of `main` and leaves the file system `main`
left: the top level only adds the failure report to the error stream. -/
theorem execute_world_eq_main (env : Env) (files : FileSystem) :
    (execute env files).world.trace = (main env (World.initial files)).2.trace ∧
    (execute env files).world.files = (main env (World.initial files)).2.files := by
  unfold execute
  split <;> rename_i heq <;> rw [heq] <;>
    simp [bind, Script.andThen, consoleError]

/-- The eight calls that precede the write in a run that reaches it. -/
theorem callsBeforeWrite_spec :
    (⟨.deployed, none⟩ : Event) ∈ callsBeforeWrite ∧
    ⟨.agreementCounter, none⟩ ∈ callsBeforeWrite ∧
    ⟨.REPUTATION_REWARD, none⟩ ∈ callsBeforeWrite ∧
    ⟨.REPUTATION_PENALTY, none⟩ ∈ callsBeforeWrite := by
  simp [callsBeforeWrite]

/-! ## Properties of the script -/

/-- C1, counterexample: in the scenario whose deployment transaction carries a
`null` block number every call returns, and the record that is written to
`deployment-info.json` has `blockNumber: null`. -/
theorem C1_record_with_null_block_number_is_written :
    pendingProject.deployTransaction.blockNumber = none ∧
    (execute pendingEnv emptyFiles).status = 0 ∧
    (execute pendingEnv emptyFiles).world.files recordPath =
      some (JSON.stringify (deploymentInfo pendingProject scenarioSigner pendingEnv)) ∧
    (deploymentInfo pendingProject scenarioSigner pendingEnv).lookup "blockNumber" =
      some JSVal.null := by
  refine ⟨rfl, by decide, rfl, rfl⟩

/-- C1, amended: whenever `fs.writeFileSync` is invoked in a run, it is
invoked on `deployment-info.json` with the serialized `deploymentInfo`, as the
last call of the run, after `deployed()` and the three accessors
(`agreementCounter`, `REPUTATION_REWARD`, `REPUTATION_PENALTY`) have returned.
The block number is not examined: the record carries
`deployTransaction.blockNumber` as it is, `null` included. -/
theorem C1_write_only_after_confirmation_and_probes (env : Env) (files : FileSystem)
    (path data : String) (threw : Option JSError)
    (h : ⟨.writeFileSync path data, threw⟩ ∈ (execute env files).world.trace) :
    ∃ deployer project counter reward penalty before,
      (∃ rest, env.hre.getSigners = .ok (deployer :: rest)) ∧
      (∃ factory, env.hre.getContractFactory "Project" = .ok factory ∧
        factory.deploy = .ok project) ∧
      project.deployed = .ok () ∧
      project.agreementCounter = .ok counter ∧
      project.REPUTATION_REWARD = .ok reward ∧
      project.REPUTATION_PENALTY = .ok penalty ∧
      path = recordPath ∧
      data = JSON.stringify (deploymentInfo project deployer env) ∧
      (deploymentInfo project deployer env).lookup "blockNumber" =
        some (numberOrNull project.deployTransaction.blockNumber) ∧
      (execute env files).world.trace = before ++ [⟨.writeFileSync path data, threw⟩] ∧
      ⟨.deployed, none⟩ ∈ before ∧
      ⟨.agreementCounter, none⟩ ∈ before ∧
      ⟨.REPUTATION_REWARD, none⟩ ∈ before ∧
      ⟨.REPUTATION_PENALTY, none⟩ ∈ before := by
  rcases halts_or_completes env with ⟨tr, err, hh⟩ | ⟨deployer, project, counter, reward, penalty, hc⟩
  · obtain ⟨-, htr, -, -, -⟩ := execute_of_halts env files tr err hh
    rw [htr] at h ⊢
    cases hh with
    | writeFileSync deployer rest balance factory project counter reward penalty e
        hs hb hf hd hw hc hr hp hx =>
      simp at h
      obtain ⟨⟨rfl, rfl⟩, rfl⟩ := h
      exact ⟨deployer, project, counter, reward, penalty, callsBeforeWrite, ⟨rest, hs⟩,
        ⟨factory, hf, hd⟩, hw, hc, hr, hp, rfl, rfl, rfl, rfl, callsBeforeWrite_spec⟩
    | _ => simp at h
  · obtain ⟨-, htr, -, -, -, -, -, -, -⟩ :=
      execute_of_completes env files deployer project counter reward penalty hc
    rw [htr] at h ⊢
    simp [completeTrace] at h
    obtain ⟨⟨rfl, rfl⟩, rfl⟩ := h
    exact ⟨deployer, project, counter, reward, penalty, callsBeforeWrite, hc.signers,
      hc.factory, hc.deployed, hc.agreementCounter, hc.reputationReward,
      hc.reputationPenalty, rfl, rfl, rfl, rfl, callsBeforeWrite_spec⟩

/-- C1, witness: the end-to-end scenario, whose run ends with the write. -/
theorem C1_write_only_after_confirmation_and_probes_witness :
    (⟨.writeFileSync recordPath
        (JSON.stringify (deploymentInfo scenarioProject scenarioSigner scenarioEnv)), none⟩ :
      Event) ∈ (execute scenarioEnv emptyFiles).world.trace ∧
    ∃ deployer project counter reward penalty before,
      (∃ rest, scenarioEnv.hre.getSigners = .ok (deployer :: rest)) ∧
      (∃ factory, scenarioEnv.hre.getContractFactory "Project" = .ok factory ∧
        factory.deploy = .ok project) ∧
      project.deployed = .ok () ∧
      project.agreementCounter = .ok counter ∧
      project.REPUTATION_REWARD = .ok reward ∧
      project.REPUTATION_PENALTY = .ok penalty ∧
      recordPath = recordPath ∧
      JSON.stringify (deploymentInfo scenarioProject scenarioSigner scenarioEnv) =
        JSON.stringify (deploymentInfo project deployer scenarioEnv) ∧
      (deploymentInfo project deployer scenarioEnv).lookup "blockNumber" =
        some (numberOrNull project.deployTransaction.blockNumber) ∧
      (execute scenarioEnv emptyFiles).world.trace =
        before ++ [⟨.writeFileSync recordPath
          (JSON.stringify (deploymentInfo scenarioProject scenarioSigner scenarioEnv)), none⟩] ∧
      ⟨.deployed, none⟩ ∈ before ∧
      ⟨.agreementCounter, none⟩ ∈ before ∧
      ⟨.REPUTATION_REWARD, none⟩ ∈ before ∧
      ⟨.REPUTATION_PENALTY, none⟩ ∈ before :=
  have h : (⟨.writeFileSync recordPath
        (JSON.stringify (deploymentInfo scenarioProject scenarioSigner scenarioEnv)), none⟩ :
      Event) ∈ (execute scenarioEnv emptyFiles).world.trace := by
    have htr : (execute scenarioEnv emptyFiles).world.trace =
        completeTrace scenarioEnv scenarioSigner scenarioProject := rfl
    rw [htr]; simp [completeTrace]
  ⟨h, C1_write_only_after_confirmation_and_probes scenarioEnv emptyFiles recordPath
    (JSON.stringify (deploymentInfo scenarioProject scenarioSigner scenarioEnv)) none h⟩

/-- C2, counterexample: with accessors that return counter 1, reward 7 and
penalty 3 instead of 0, 10 and 5, the run does not fail: the record is written
to `deployment-info.json` and the exit status is 0. -/
theorem C2_unexpected_probe_values_are_accepted :
    mismatchProject.agreementCounter = .ok 1 ∧
    mismatchProject.REPUTATION_REWARD = .ok 7 ∧
    mismatchProject.REPUTATION_PENALTY = .ok 3 ∧
    (execute mismatchEnv emptyFiles).status = 0 ∧
    (execute mismatchEnv emptyFiles).world.files recordPath =
      some (JSON.stringify (deploymentInfo mismatchProject scenarioSigner mismatchEnv)) ∧
    (execute mismatchEnv emptyFiles).world.stderr = [] := by
  refine ⟨rfl, rfl, rfl, by decide, rfl, rfl⟩

/-- C2, amended: for every run in which every call returns, whatever values
the three accessors return (the expected constants 0, 10, 5 or any others),
`main` does not fail: the values are only displayed, nothing is written to the
error stream, the record is written to `deployment-info.json` and the exit
status is 0. -/
theorem C2_probe_values_are_displayed_not_compared (env : Env) (files : FileSystem)
    (deployer : Signer) (project : Contract) (counter reward penalty : Nat)
    (h : Completes env deployer project counter reward penalty) :
    (execute env files).status = 0 ∧
    (execute env files).world.stderr = [] ∧
    (execute env files).world.files recordPath =
      some (JSON.stringify (deploymentInfo project deployer env)) ∧
    [.str "Initial Agreement Counter:", .str (toString counter)] ∈
      (execute env files).world.stdout ∧
    [.str "Reputation Reward:", .str (toString reward), .str "points"] ∈
      (execute env files).world.stdout ∧
    [.str "Reputation Penalty:", .str (toString penalty), .str "points"] ∈
      (execute env files).world.stdout := by
  obtain ⟨hst, -, hfi, hse, -, hc, hr, hp, -⟩ :=
    execute_of_completes env files deployer project counter reward penalty h
  refine ⟨hst, hse, ?_, hc, hr, hp⟩
  rw [hfi]
  simp [FileSystem.write]

/-- Every call of the environment built by `envWith` returns when the methods
of the instance do. -/
theorem envWith_completes (signer : Signer) (project : Contract) (balance counter reward
    penalty : Nat) (hb : signer.getBalance = .ok balance) (hd : project.deployed = .ok ())
    (hc : project.agreementCounter = .ok counter)
    (hr : project.REPUTATION_REWARD = .ok reward)
    (hp : project.REPUTATION_PENALTY = .ok penalty) :
    Completes (envWith signer project) signer project counter reward penalty :=
  ⟨⟨[], rfl⟩, ⟨balance, hb⟩, ⟨_, rfl, rfl⟩, hd, hc, hr, hp, rfl⟩

/-- C2, witness: the run with counter 1, reward 7 and penalty 3. -/
theorem C2_probe_values_are_displayed_not_compared_witness :
    Completes mismatchEnv scenarioSigner mismatchProject 1 7 3 ∧
    (execute mismatchEnv emptyFiles).status = 0 ∧
    (execute mismatchEnv emptyFiles).world.stderr = [] ∧
    (execute mismatchEnv emptyFiles).world.files recordPath =
      some (JSON.stringify (deploymentInfo mismatchProject scenarioSigner mismatchEnv)) ∧
    [.str "Initial Agreement Counter:", .str (toString 1)] ∈
      (execute mismatchEnv emptyFiles).world.stdout ∧
    [.str "Reputation Reward:", .str (toString 7), .str "points"] ∈
      (execute mismatchEnv emptyFiles).world.stdout ∧
    [.str "Reputation Penalty:", .str (toString 3), .str "points"] ∈
      (execute mismatchEnv emptyFiles).world.stdout :=
  ⟨envWith_completes scenarioSigner mismatchProject (10 ^ 18) 1 7 3 rfl rfl rfl rfl rfl,
    C2_probe_values_are_displayed_not_compared mismatchEnv emptyFiles scenarioSigner
      mismatchProject 1 7 3
      (envWith_completes scenarioSigner mismatchProject (10 ^ 18) 1 7 3 rfl rfl rfl rfl rfl)⟩

/-- C3: the exit status is 0 exactly when `main` ran to its end, and then the
record has been written to `deployment-info.json`; the process makes the calls
of `main` and leaves the file system `main` left; and whenever `main` rejects
with a value, in particular whenever a call made by `main` throws one, the
exit status is 1, and the error stream holds the two banner lines followed by
that very value. -/
theorem C3_exit_status_reflects_outcome (env : Env) (files : FileSystem) :
    ((execute env files).status = 0 ↔
      ((main env (World.initial files)).1 = .ok () ∧
        ∃ data, ⟨.writeFileSync recordPath data, none⟩ ∈
            (main env (World.initial files)).2.trace ∧
          (main env (World.initial files)).2.files recordPath = some data)) ∧
    (execute env files).world.trace = (main env (World.initial files)).2.trace ∧
    (execute env files).world.files = (main env (World.initial files)).2.files ∧
    (∀ c e, ⟨c, some e⟩ ∈ (main env (World.initial files)).2.trace →
      (main env (World.initial files)).1 = .error e) ∧
    (∀ e, (main env (World.initial files)).1 = .error e →
      (execute env files).status = 1 ∧
      (execute env files).world.stderr =
        [[.str "\n❌ Deployment failed!"],
         [.str "==========================================\n"],
         [.error e]]) := by
  obtain ⟨htrace, hfiles⟩ := execute_world_eq_main env files
  rw [← htrace, ← hfiles]
  rcases halts_or_completes env with ⟨tr, err, hh⟩ | ⟨deployer, project, counter, reward, penalty, hc⟩
  · obtain ⟨hst, htr, -, hse, hm⟩ := execute_of_halts env files tr err hh
    refine ⟨⟨fun h => by omega, fun h => by simp [hm] at h⟩, rfl, rfl, ?_, ?_⟩
    · intro c e hmem
      rw [htr] at hmem
      rw [hm]
      cases hh <;> simp at hmem <;> obtain ⟨-, rfl⟩ := hmem <;> rfl
    · intro e he
      rw [hm] at he
      obtain rfl := Except.error.inj he
      exact ⟨hst, by rw [hse]; rfl⟩
  · obtain ⟨hst, htr, hfi, -, -, -, -, -, hm⟩ :=
      execute_of_completes env files deployer project counter reward penalty hc
    refine ⟨⟨fun _ => ⟨hm, JSON.stringify (deploymentInfo project deployer env), ?_, ?_⟩,
      fun _ => hst⟩, rfl, rfl, ?_, ?_⟩
    · rw [htr]; simp [completeTrace]
    · rw [hfi]; simp [FileSystem.write]
    · intro c e hmem
      rw [htr] at hmem
      simp [completeTrace] at hmem
    · intro e he
      simp [hm] at he

/-- C3, witness: the end-to-end scenario runs `main` to its end and exits with
status 0; the run whose `deploy()` is refused for lack of funds exits with
status 1, and its error stream ends with the refusal itself. -/
theorem C3_exit_status_reflects_outcome_witness :
    (main scenarioEnv (World.initial emptyFiles)).1 = .ok () ∧
    (execute scenarioEnv emptyFiles).status = 0 ∧
    ⟨.deploy, some insufficientFunds⟩ ∈
      (main unfundedEnv (World.initial emptyFiles)).2.trace ∧
    (main unfundedEnv (World.initial emptyFiles)).1 = .error insufficientFunds ∧
    (execute unfundedEnv emptyFiles).status = 1 ∧
    (execute unfundedEnv emptyFiles).world.stderr =
      [[.str "\n❌ Deployment failed!"],
       [.str "==========================================\n"],
       [.error insufficientFunds]] :=
  have hok : (main scenarioEnv (World.initial emptyFiles)).1 = .ok () ∧
      ∃ data, ⟨.writeFileSync recordPath data, none⟩ ∈
          (main scenarioEnv (World.initial emptyFiles)).2.trace ∧
        (main scenarioEnv (World.initial emptyFiles)).2.files recordPath = some data := by
    refine ⟨rfl, JSON.stringify (deploymentInfo scenarioProject scenarioSigner scenarioEnv),
      ?_, rfl⟩
    have htr : (main scenarioEnv (World.initial emptyFiles)).2.trace =
        completeTrace scenarioEnv scenarioSigner scenarioProject := rfl
    rw [htr]; simp [completeTrace]
  have hthrew : ⟨.deploy, some insufficientFunds⟩ ∈
      (main unfundedEnv (World.initial emptyFiles)).2.trace := by
    have htr : (main unfundedEnv (World.initial emptyFiles)).2.trace =
      [⟨.getSigners, none⟩, ⟨.getBalance, none⟩, ⟨.getContractFactory "Project", none⟩,
       ⟨.deploy, some insufficientFunds⟩] := rfl
    rw [htr]; simp
  have hrej := (C3_exit_status_reflects_outcome unfundedEnv emptyFiles).2.2.2.1
    .deploy insufficientFunds hthrew
  have hrep := (C3_exit_status_reflects_outcome unfundedEnv emptyFiles).2.2.2.2
    insufficientFunds hrej
  ⟨hok.1, (C3_exit_status_reflects_outcome scenarioEnv emptyFiles).1.mpr hok,
    hthrew, hrej, hrep.1, hrep.2⟩

/-- C4, counterexample: the deployment transaction of `pendingProject` is
confirmed in block 1000 (`deployed()` resolves on the receipt of that block),
but the response returned with the instance carries no block number; the run
exits with status 0 and the `blockNumber` of the record it writes is `null`,
not 1000. -/
theorem C4_record_misses_the_confirmed_block_number :
    pendingProject.deployTransaction.wait = .ok 1000 ∧
    pendingProject.deployed = .ok () ∧
    (execute pendingEnv emptyFiles).status = 0 ∧
    (execute pendingEnv emptyFiles).world.trace.filter Event.isWrite =
      [⟨.writeFileSync "deployment-info.json"
          (JSON.stringify
            [("contractAddress", .str "0xBBB..."),
             ("transactionHash", .str "0xdeadbeef..."),
             ("blockNumber", .null),
             ("deployer", .str "0xAAA..."),
             ("network", .str "goerli"),
             ("timestamp", .str "2024-01-01T00:00:00.000Z"),
             ("contractName", .str "TrustSync (Project.sol)")]),
        none⟩] ∧
    JSVal.null ≠ JSVal.num 1000 ∧
    [.str "Block Number:", .null] ∈ (execute pendingEnv emptyFiles).world.stdout := by
  have hc : Completes pendingEnv scenarioSigner pendingProject 0 10 5 :=
    envWith_completes scenarioSigner pendingProject (10 ^ 18) 0 10 5 rfl rfl rfl rfl rfl
  obtain ⟨hst, htr, -, -, hbn, -, -, -, -⟩ :=
    execute_of_completes pendingEnv emptyFiles scenarioSigner pendingProject 0 10 5 hc
  refine ⟨rfl, rfl, hst, ?_, by simp, hbn⟩
  rw [htr]
  rfl

/-- C4, amended: in every run that exits with status 0, the `blockNumber`
property of the record written to `deployment-info.json` is the `blockNumber`
that the deployment transaction of the instance returned by `deploy()` carries
once `deployed()` has resolved, the very value displayed after
`Block Number:`: that number when the response carries one, and `null` when it
carries none.  The number is not taken from the confirmation. -/
theorem C4_recorded_block_number_is_the_displayed_one (env : Env) (files : FileSystem)
    (h : (execute env files).status = 0) :
    ∃ deployer project factory,
      env.hre.getContractFactory "Project" = .ok factory ∧
      factory.deploy = .ok project ∧
      project.deployed = .ok () ∧
      (execute env files).world.files recordPath =
        some (JSON.stringify (deploymentInfo project deployer env)) ∧
      (∀ n, project.deployTransaction.blockNumber = some n →
        (deploymentInfo project deployer env).lookup "blockNumber" = some (.num n) ∧
        [.str "Block Number:", .num n] ∈ (execute env files).world.stdout) ∧
      (project.deployTransaction.blockNumber = none →
        (deploymentInfo project deployer env).lookup "blockNumber" = some .null ∧
        [.str "Block Number:", .null] ∈ (execute env files).world.stdout) := by
  obtain ⟨deployer, project, counter, reward, penalty, hc⟩ :=
    completes_of_status_zero env files h
  obtain ⟨-, -, hfi, -, hbn, -, -, -, -⟩ :=
    execute_of_completes env files deployer project counter reward penalty hc
  obtain ⟨factory, hf, hd⟩ := hc.factory
  refine ⟨deployer, project, factory, hf, hd, hc.deployed, ?_, ?_, ?_⟩
  · rw [hfi]
    simp [FileSystem.write]
  · intro n hn
    rw [hn] at hbn
    have hl : (deploymentInfo project deployer env).lookup "blockNumber" =
        some (numberOrNull project.deployTransaction.blockNumber) := rfl
    rw [hn] at hl
    exact ⟨hl, hbn⟩
  · intro hn
    rw [hn] at hbn
    have hl : (deploymentInfo project deployer env).lookup "blockNumber" =
        some (numberOrNull project.deployTransaction.blockNumber) := rfl
    rw [hn] at hl
    exact ⟨hl, hbn⟩

/-- C4, witness: the end-to-end scenario, whose response carries block 1000:
the record holds 1000 and 1000 is displayed. -/
theorem C4_recorded_block_number_is_the_displayed_one_witness :
    (execute scenarioEnv emptyFiles).status = 0 ∧
    (deploymentInfo scenarioProject scenarioSigner scenarioEnv).lookup "blockNumber" =
      some (.num 1000) ∧
    [.str "Block Number:", .num 1000] ∈ (execute scenarioEnv emptyFiles).world.stdout := by
  refine ⟨by decide, ?_⟩
  obtain ⟨deployer, project, factory, hf, hd, -, -, hsome, -⟩ :=
    C4_recorded_block_number_is_the_displayed_one scenarioEnv emptyFiles (by decide)
  have hf1 : ({ deploy := .ok scenarioProject } : ContractFactory) = factory :=
    Except.ok.inj hf
  subst hf1
  have hd1 : scenarioProject = project := Except.ok.inj hd
  subst hd1
  exact hsome 1000 rfl

/-- C5: in every run that exits with status 0, `fs.writeFileSync` is invoked
exactly once, on `deployment-info.json`, with the serialization of an object
that has exactly the seven properties `contractAddress` (the address of the
deployed instance, as returned by `deploy()`), `transactionHash` (the hash of
its deployment transaction), `blockNumber`, `deployer` (the address of the
first signer), `network` (the name of the active network), `timestamp` and
`contractName` (the text `TrustSync (Project.sol)`). -/
theorem C5_one_write_of_the_seven_field_record (env : Env) (files : FileSystem)
    (h : (execute env files).status = 0) :
    ∃ deployer rest factory project,
      env.hre.getSigners = .ok (deployer :: rest) ∧
      env.hre.getContractFactory "Project" = .ok factory ∧
      factory.deploy = .ok project ∧
      (execute env files).world.trace.filter Event.isWrite =
        [⟨.writeFileSync "deployment-info.json"
            (JSON.stringify
              [("contractAddress", .str project.address),
               ("transactionHash", .str project.deployTransaction.hash),
               ("blockNumber", numberOrNull project.deployTransaction.blockNumber),
               ("deployer", .str deployer.address),
               ("network", .str env.hre.networkName),
               ("timestamp", .str env.now),
               ("contractName", .str "TrustSync (Project.sol)")]),
          none⟩] := by
  obtain ⟨deployer, project, counter, reward, penalty, hc⟩ :=
    completes_of_status_zero env files h
  obtain ⟨-, htr, -, -, -, -, -, -, -⟩ :=
    execute_of_completes env files deployer project counter reward penalty hc
  obtain ⟨rest, hs⟩ := hc.signers
  obtain ⟨factory, hf, hd⟩ := hc.factory
  refine ⟨deployer, rest, factory, project, hs, hf, hd, ?_⟩
  rw [htr]
  simp [completeTrace, Event.isWrite, List.filter, recordPath, deploymentInfo]

/-- C5, witness: the end-to-end scenario (signer `0xAAA...`, instance
`0xBBB...`, hash `0xdeadbeef...`, block 1000, network `goerli`): the one write
is that of the record of the scenario. -/
theorem C5_one_write_of_the_seven_field_record_witness :
    (execute scenarioEnv emptyFiles).status = 0 ∧
    (execute scenarioEnv emptyFiles).world.trace.filter Event.isWrite =
      [⟨.writeFileSync "deployment-info.json"
          (JSON.stringify
            [("contractAddress", .str "0xBBB..."),
             ("transactionHash", .str "0xdeadbeef..."),
             ("blockNumber", .num 1000),
             ("deployer", .str "0xAAA..."),
             ("network", .str "goerli"),
             ("timestamp", .str "2024-01-01T00:00:00.000Z"),
             ("contractName", .str "TrustSync (Project.sol)")]),
        none⟩] := by
  refine ⟨by decide, ?_⟩
  obtain ⟨deployer, rest, factory, project, hs, hf, hd, hw⟩ :=
    C5_one_write_of_the_seven_field_record scenarioEnv emptyFiles (by decide)
  have hs1 : scenarioSigner = deployer := (List.cons.inj (Except.ok.inj hs)).1
  have hf1 : ({ deploy := .ok scenarioProject } : ContractFactory) = factory :=
    Except.ok.inj hf
  subst hs1 hf1
  have hd1 : scenarioProject = project := Except.ok.inj hd
  subst hd1
  exact hw

/-- C6, counterexample: when the artifact of `Project` is absent, the calls
made before `main` halts are `getSigners`, `getBalance` and the failing
`getContractFactory`; the balance query is a call to the network node, so
`main` does not halt before any network call is made. -/
theorem C6_balance_is_queried_before_the_factory_fails :
    noArtifactEnv.hre.getContractFactory "Project" = .error artifactNotFound ∧
    (execute noArtifactEnv emptyFiles).world.trace =
      [⟨.getSigners, none⟩, ⟨.getBalance, none⟩,
       ⟨.getContractFactory "Project", some artifactNotFound⟩] ∧
    Call.getBalance.isNetworkCall = true ∧
    ¬ ∀ ev ∈ (execute noArtifactEnv emptyFiles).world.trace,
        ev.call.isNetworkCall = false := by
  refine ⟨rfl, rfl, rfl, ?_⟩
  intro h
  have h1 := h ⟨.getBalance, none⟩ (by
    have htr : (execute noArtifactEnv emptyFiles).world.trace =
      [⟨.getSigners, none⟩, ⟨.getBalance, none⟩,
       ⟨.getContractFactory "Project", some artifactNotFound⟩] := rfl
    rw [htr]; simp)
  simp [Call.isNetworkCall] at h1

/-- C6, amended: if `getContractFactory("Project")` fails because the compiled
artifact is absent, `main` halts before any transaction is submitted: the only
calls made are `getSigners`, `getBalance` and `getContractFactory` (the signer
enumeration and the balance query precede the factory lookup), `deploy()` is
never invoked, no record is written, the file system is left as it was, and
the exit status is 1. -/
theorem C6_no_transaction_without_artifact (env : Env) (files : FileSystem) (e : JSError)
    (h : env.hre.getContractFactory "Project" = .error e) :
    (∀ ev ∈ (execute env files).world.trace,
      ev.call = .getSigners ∨ ev.call = .getBalance ∨
        ev.call = .getContractFactory "Project") ∧
    (∀ ev ∈ (execute env files).world.trace, ev.call ≠ .deploy) ∧
    (∀ ev ∈ (execute env files).world.trace, ev.isWrite = false) ∧
    (execute env files).world.files = files ∧
    (execute env files).status = 1 := by
  rcases halts_or_completes env with ⟨tr, err, hh⟩ | ⟨deployer, project, counter, reward, penalty, hc⟩
  · obtain ⟨hst, htr, hfi, -, -⟩ := execute_of_halts env files tr err hh
    rw [htr, hfi, hst]
    cases hh <;> simp_all [Event.isWrite]
  · obtain ⟨factory, hf, -⟩ := hc.factory
    simp [h] at hf

/-- C6, witness: the scenario without a compiled artifact. -/
theorem C6_no_transaction_without_artifact_witness :
    noArtifactEnv.hre.getContractFactory "Project" = .error artifactNotFound ∧
    (∀ ev ∈ (execute noArtifactEnv emptyFiles).world.trace,
      ev.call = .getSigners ∨ ev.call = .getBalance ∨
        ev.call = .getContractFactory "Project") ∧
    (∀ ev ∈ (execute noArtifactEnv emptyFiles).world.trace, ev.call ≠ .deploy) ∧
    (∀ ev ∈ (execute noArtifactEnv emptyFiles).world.trace, ev.isWrite = false) ∧
    (execute noArtifactEnv emptyFiles).world.files = emptyFiles ∧
    (execute noArtifactEnv emptyFiles).status = 1 :=
  ⟨rfl, C6_no_transaction_without_artifact noArtifactEnv emptyFiles artifactNotFound rfl⟩

/-- C7: if `deploy()` or `deployed()` throws in a run, the failure is fatal:
`deploy()` has been invoked exactly once in the run, none of the three
accessors is called, `fs.writeFileSync` is not invoked and the file system is
left as it was, `main` rejects with the thrown value, and the exit status is
1. -/
theorem C7_deployment_failure_is_fatal (env : Env) (files : FileSystem) (e : JSError)
    (h : ⟨.deploy, some e⟩ ∈ (execute env files).world.trace ∨
      ⟨.deployed, some e⟩ ∈ (execute env files).world.trace) :
    ((execute env files).world.trace.filter fun ev => ev.call = .deploy).length = 1 ∧
    (∀ ev ∈ (execute env files).world.trace, ev.isProbe = false) ∧
    (∀ ev ∈ (execute env files).world.trace, ev.isWrite = false) ∧
    (execute env files).world.files = files ∧
    (main env (World.initial files)).1 = .error e ∧
    (execute env files).status = 1 := by
  rcases halts_or_completes env with ⟨tr, err, hh⟩ | ⟨deployer, project, counter, reward, penalty, hc⟩
  · obtain ⟨hst, htr, hfi, -, hm⟩ := execute_of_halts env files tr err hh
    rw [htr] at h ⊢
    rw [hfi, hst, hm]
    cases hh <;> simp at h <;> subst h <;> simp [Event.isWrite, Event.isProbe, List.filter]
  · obtain ⟨-, htr, -, -, -, -, -, -, -⟩ :=
      execute_of_completes env files deployer project counter reward penalty hc
    rw [htr] at h
    simp [completeTrace] at h

/-- C7, witness: the signer of zero balance, whose `deploy()` is refused. -/
theorem C7_deployment_failure_is_fatal_witness :
    (⟨.deploy, some insufficientFunds⟩ ∈ (execute unfundedEnv emptyFiles).world.trace ∨
      ⟨.deployed, some insufficientFunds⟩ ∈ (execute unfundedEnv emptyFiles).world.trace) ∧
    ((execute unfundedEnv emptyFiles).world.trace.filter
      fun ev => ev.call = .deploy).length = 1 ∧
    (∀ ev ∈ (execute unfundedEnv emptyFiles).world.trace, ev.isProbe = false) ∧
    (∀ ev ∈ (execute unfundedEnv emptyFiles).world.trace, ev.isWrite = false) ∧
    (execute unfundedEnv emptyFiles).world.files = emptyFiles ∧
    (main unfundedEnv (World.initial emptyFiles)).1 = .error insufficientFunds ∧
    (execute unfundedEnv emptyFiles).status = 1 :=
  have h : ⟨.deploy, some insufficientFunds⟩ ∈ (execute unfundedEnv emptyFiles).world.trace ∨
      ⟨.deployed, some insufficientFunds⟩ ∈ (execute unfundedEnv emptyFiles).world.trace := by
    have htr : (execute unfundedEnv emptyFiles).world.trace =
      [⟨.getSigners, none⟩, ⟨.getBalance, none⟩, ⟨.getContractFactory "Project", none⟩,
       ⟨.deploy, some insufficientFunds⟩] := rfl
    rw [htr]; simp
  ⟨h, C7_deployment_failure_is_fatal unfundedEnv emptyFiles insufficientFunds h⟩

/-- C8, counterexample: when the balance query fails, `main` halts there: the
calls made are `getSigners` and the failing `getBalance`, no record exists
afterwards, and the exit status is 1. -/
theorem C8_balance_failure_halts_the_run :
    (execute balanceFailEnv emptyFiles).world.trace =
      [⟨.getSigners, none⟩, ⟨.getBalance, some networkError⟩] ∧
    (execute balanceFailEnv emptyFiles).world.files recordPath = none ∧
    (execute balanceFailEnv emptyFiles).status = 1 := by
  refine ⟨rfl, rfl, by decide⟩

/-- C8, amended: a failure of the balance read (`deployer.getBalance()`
throws) is fatal: `main` rejects with the thrown value right there, so that
the factory is not bound, no deployment is submitted, nothing is verified or
recorded and the file system is left as it was; the failure is surfaced on the
error stream and the exit status is 1. -/
theorem C8_balance_failure_is_fatal (env : Env) (files : FileSystem) (e : JSError)
    (h : ⟨.getBalance, some e⟩ ∈ (execute env files).world.trace) :
    (execute env files).world.trace = [⟨.getSigners, none⟩, ⟨.getBalance, some e⟩] ∧
    (main env (World.initial files)).1 = .error e ∧
    (execute env files).world.files = files ∧
    (execute env files).world.stderr =
      [[.str "\n❌ Deployment failed!"],
       [.str "==========================================\n"],
       [.error e]] ∧
    (execute env files).status = 1 := by
  rcases halts_or_completes env with ⟨tr, err, hh⟩ | ⟨deployer, project, counter, reward, penalty, hc⟩
  · obtain ⟨hst, htr, hfi, hse, hm⟩ := execute_of_halts env files tr err hh
    rw [htr] at h ⊢
    rw [hfi, hst, hm, hse]
    cases hh <;> simp at h
    subst h
    simp [failureReport]
  · obtain ⟨-, htr, -, -, -, -, -, -, -⟩ :=
      execute_of_completes env files deployer project counter reward penalty hc
    rw [htr] at h
    simp [completeTrace] at h

/-- C8, witness: the scenario in which the balance query fails. -/
theorem C8_balance_failure_is_fatal_witness :
    ⟨.getBalance, some networkError⟩ ∈ (execute balanceFailEnv emptyFiles).world.trace ∧
    (execute balanceFailEnv emptyFiles).world.trace =
      [⟨.getSigners, none⟩, ⟨.getBalance, some networkError⟩] ∧
    (main balanceFailEnv (World.initial emptyFiles)).1 = .error networkError ∧
    (execute balanceFailEnv emptyFiles).world.files = emptyFiles ∧
    (execute balanceFailEnv emptyFiles).world.stderr =
      [[.str "\n❌ Deployment failed!"],
       [.str "==========================================\n"],
       [.error networkError]] ∧
    (execute balanceFailEnv emptyFiles).status = 1 :=
  have h : ⟨.getBalance, some networkError⟩ ∈
      (execute balanceFailEnv emptyFiles).world.trace := by
    have htr : (execute balanceFailEnv emptyFiles).world.trace =
      [⟨.getSigners, none⟩, ⟨.getBalance, some networkError⟩] := rfl
    rw [htr]; simp
  ⟨h, C8_balance_failure_is_fatal balanceFailEnv emptyFiles networkError h⟩

/-- C9, counterexample: on a network without any configured account
`getSigners()` returns an empty list, and `main` rejects with the `TypeError`
of reading `address` of `undefined`, which is the value reported on the error
stream; it is not a configuration error. -/
theorem C9_empty_signer_list_raises_a_type_error :
    noSignerEnv.hre.getSigners = .ok [] ∧
    (main noSignerEnv (World.initial emptyFiles)).1 =
      .error ⟨"TypeError", "Cannot read properties of undefined (reading \x27address\x27)"⟩ ∧
    (execute noSignerEnv emptyFiles).world.stderr =
      [[.str "\n❌ Deployment failed!"],
       [.str "==========================================\n"],
       [.error ⟨"TypeError",
         "Cannot read properties of undefined (reading \x27address\x27)"⟩]] ∧
    (⟨"TypeError", "Cannot read properties of undefined (reading \x27address\x27)"⟩ :
      JSError).name ≠ "ConfigurationError" := by
  refine ⟨rfl, ?_, ?_, by decide⟩
  · obtain ⟨-, -, -, -, hm⟩ := execute_of_halts noSignerEnv emptyFiles _ _ (.noSigner rfl)
    rw [hm]
    simp [undefinedPropertyError]
  · obtain ⟨-, -, -, hse, -⟩ := execute_of_halts noSignerEnv emptyFiles _ _ (.noSigner rfl)
    rw [hse]
    simp [failureReport, undefinedPropertyError]

/-- C9, amended: if the network context yields no signer, `main` fails before
the contract factory is bound and before any transaction is submitted, not
with a configuration error of its own but with the value thrown by
`getSigners()` when that call throws, and with the `TypeError` of reading
`deployer.address` of `undefined` when the list is empty.  In both cases that
value is reported on the error stream, `getSigners` is the only call made, so
`getContractFactory` and `deploy()` are never invoked, no record is written and
the file system is left as it was, and the exit status is 1. -/
theorem C9_no_signer_halts_before_factory (env : Env) (files : FileSystem)
    (h : (∃ e, env.hre.getSigners = .error e) ∨ env.hre.getSigners = .ok []) :
    (∀ e, env.hre.getSigners = .error e →
      (main env (World.initial files)).1 = .error e ∧
      (execute env files).world.trace = [⟨.getSigners, some e⟩] ∧
      (execute env files).world.stderr =
        [[.str "\n❌ Deployment failed!"],
         [.str "==========================================\n"],
         [.error e]]) ∧
    (env.hre.getSigners = .ok [] →
      (main env (World.initial files)).1 =
        .error ⟨"TypeError",
          "Cannot read properties of undefined (reading \x27address\x27)"⟩ ∧
      (execute env files).world.trace = [⟨.getSigners, none⟩] ∧
      (execute env files).world.stderr =
        [[.str "\n❌ Deployment failed!"],
         [.str "==========================================\n"],
         [.error ⟨"TypeError",
           "Cannot read properties of undefined (reading \x27address\x27)"⟩]]) ∧
    (∀ ev ∈ (execute env files).world.trace,
      ev.call = .getSigners ∧ ev.call ≠ .getContractFactory "Project" ∧
        ev.call ≠ .deploy ∧ ev.isWrite = false) ∧
    (execute env files).world.files = files ∧
    (execute env files).status = 1 := by
  rcases halts_or_completes env with ⟨tr, err, hh⟩ | ⟨deployer, project, counter, reward, penalty, hc⟩
  · obtain ⟨hst, htr, hfi, hse, hm⟩ := execute_of_halts env files tr err hh
    rw [htr, hfi, hst, hm, hse]
    cases hh <;> simp_all [Event.isWrite, failureReport, undefinedPropertyError]
  · obtain ⟨rest, hs⟩ := hc.signers
    simp [hs] at h

/-- C9, witness: a network without any configured account. -/
theorem C9_no_signer_halts_before_factory_witness :
    ((∃ e, noSignerEnv.hre.getSigners = .error e) ∨ noSignerEnv.hre.getSigners = .ok []) ∧
    (execute noSignerEnv emptyFiles).world.trace = [⟨.getSigners, none⟩] ∧
    (execute noSignerEnv emptyFiles).world.files = emptyFiles ∧
    (execute noSignerEnv emptyFiles).status = 1 :=
  ⟨Or.inr rfl,
    ((C9_no_signer_halts_before_factory noSignerEnv emptyFiles (Or.inr rfl)).2.1 rfl).2.1,
    (C9_no_signer_halts_before_factory noSignerEnv emptyFiles (Or.inr rfl)).2.2.2.1,
    (C9_no_signer_halts_before_factory noSignerEnv emptyFiles (Or.inr rfl)).2.2.2.2⟩

/-- C10: with the file system threaded through two successive runs that both
exit with status 0, the content of `deployment-info.json` after the second run
is exactly the serialized record of the second run, whatever the file system
held before the first run; every other path holds what it held before the
first run, and every write of either run goes to `deployment-info.json`. -/
theorem C10_second_run_overwrites_record (env1 env2 : Env) (files : FileSystem)
    (h1 : (execute env1 files).status = 0)
    (h2 : (execute env2 (execute env1 files).world.files).status = 0) :
    ∃ deployer rest factory project,
      env2.hre.getSigners = .ok (deployer :: rest) ∧
      env2.hre.getContractFactory "Project" = .ok factory ∧
      factory.deploy = .ok project ∧
      (execute env2 (execute env1 files).world.files).world.files recordPath =
        some (JSON.stringify (deploymentInfo project deployer env2)) ∧
      (∀ path, path ≠ recordPath →
        (execute env2 (execute env1 files).world.files).world.files path = files path) ∧
      (∀ ev ∈ (execute env1 files).world.trace ++
          (execute env2 (execute env1 files).world.files).world.trace,
        ∀ path data, ev.call = .writeFileSync path data → path = recordPath) := by
  obtain ⟨d1, p1, c1, r1, q1, hc1⟩ := completes_of_status_zero env1 files h1
  obtain ⟨d2, p2, c2, r2, q2, hc2⟩ := completes_of_status_zero env2 _ h2
  obtain ⟨-, htr1, hfi1, -, -, -, -, -, -⟩ := execute_of_completes env1 files d1 p1 c1 r1 q1 hc1
  obtain ⟨-, htr2, hfi2, -, -, -, -, -, -⟩ :=
    execute_of_completes env2 (execute env1 files).world.files d2 p2 c2 r2 q2 hc2
  obtain ⟨rest, hs⟩ := hc2.signers
  obtain ⟨factory, hf, hd⟩ := hc2.factory
  refine ⟨d2, rest, factory, p2, hs, hf, hd, ?_, ?_, ?_⟩
  · rw [hfi2]; simp [FileSystem.write]
  · intro path hp
    rw [hfi2, hfi1]
    simp [FileSystem.write, hp]
  · rw [htr1, htr2]
    intro ev hev path data hcall
    simp [completeTrace] at hev
    rcases hev with hev | hev | hev | hev | hev | hev | hev | hev | hev | hev | hev | hev |
      hev | hev | hev | hev | hev | hev <;> subst hev <;> simp at hcall <;> exact hcall.1.symm

/-- C10, witness: the end-to-end scenario followed by the run with unexpected
accessor values, started on a file system that already holds a record. -/
theorem C10_second_run_overwrites_record_witness :
    (execute scenarioEnv usedFiles).status = 0 ∧
    (execute mismatchEnv (execute scenarioEnv usedFiles).world.files).status = 0 ∧
    ∃ deployer rest factory project,
      mismatchEnv.hre.getSigners = .ok (deployer :: rest) ∧
      mismatchEnv.hre.getContractFactory "Project" = .ok factory ∧
      factory.deploy = .ok project ∧
      (execute mismatchEnv (execute scenarioEnv usedFiles).world.files).world.files recordPath =
        some (JSON.stringify (deploymentInfo project deployer mismatchEnv)) ∧
      (∀ path, path ≠ recordPath →
        (execute mismatchEnv (execute scenarioEnv usedFiles).world.files).world.files path =
          usedFiles path) ∧
      (∀ ev ∈ (execute scenarioEnv usedFiles).world.trace ++
          (execute mismatchEnv (execute scenarioEnv usedFiles).world.files).world.trace,
        ∀ path data, ev.call = .writeFileSync path data → path = recordPath) :=
  ⟨by decide, by decide,
    C10_second_run_overwrites_record scenarioEnv mismatchEnv usedFiles (by decide) (by decide)⟩

end TrustSync
